import Mathlib

/-!
Verification of the book-shop server's payment-amount validation and
order-finalization logic (`src/server.js`), shallowly embedded in Lean.

JavaScript numbers are modelled as rationals (`ℚ`): all amounts in the
program are integer currency units, and the claims evaluated here only
involve arithmetic that is exact in IEEE doubles.  Possibly-absent JSON
fields are modelled as `Option`; JavaScript truthiness of a numeric field
(`!x` rejects both a missing field and `0`) is spelled out at each use.
-/

namespace BookShop

/-- A row of the `books` table as held in the active-product cache
(`BOOKS_MAP_CACHE`).  Only the columns the validator reads are kept. -/
structure Book where
  id : Nat
  title : String
  price : ℚ
deriving Repr, DecidableEq

/-- `BOOKS_MAP_CACHE.get bookId`: the cache is a map keyed by `b.id`,
modelled as an association list searched by id. -/
def lookup (cache : List Book) (bookId : Nat) : Option Book :=
  cache.find? (fun b => b.id == bookId)

/-- The `books` table uses `id SERIAL PRIMARY KEY`, so every id held in the
cache is positive (`0` is never a key). -/
def CacheWF (cache : List Book) : Prop :=
  ∀ b ∈ cache, 0 < b.id

/-- One element of the `items` array of a confirmation request:
`{ bookId, quantity, price }`, each field possibly absent. -/
structure CartItem where
  bookId : Option Nat
  quantity : Option ℚ
  price : Option ℚ
deriving Repr, DecidableEq

/-- The distinct rejection reasons produced by `validatePaymentAmount`
(the Korean message strings, keyed by their interpolated data). -/
inductive VError where
  | noItems
  | invalidLineItem
  | productNotFound (bookId : Nat)
  | priceMismatch (title : String) (serverPrice : ℚ) (clientPrice : Option ℚ)
  | totalMismatch (calculatedTotal expectedTotal : ℚ)
deriving Repr, DecidableEq

/-- The object returned by `validatePaymentAmount`: `valid`, an optional
`error` message and an optional `calculatedTotal` (absent exactly when the
source object omits the field). -/
structure VResult where
  valid : Bool
  error : Option VError
  calculatedTotal : Option ℚ
deriving Repr, DecidableEq

/-- The shipping-fee computation of `validatePaymentAmount`
(`server.js:639`): free at or above 30000, else a flat 3000. -/
def shippingFee (subtotal : ℚ) : ℚ :=
  if 30000 ≤ subtotal then 0 else 3000

/-- The per-item loop of `validatePaymentAmount` (`server.js:609-637`),
accumulating the subtotal.  A line is rejected when `!bookId || !quantity
|| quantity <= 0` (absent field, `bookId === 0`, or `quantity ≤ 0`, since
`!0` is true in JS), when the cache lookup misses, or when the client
price is not strictly equal to the master price (`undefined !== p` holds
for every number `p`, so an absent client price lands in the
price-mismatch branch). -/
def validateItems (cache : List Book) : List CartItem → ℚ → Except VError ℚ
  | [], subtotal => Except.ok subtotal
  | item :: rest, subtotal =>
    match item.bookId, item.quantity with
    | some bid, some q =>
      if bid = 0 ∨ q ≤ 0 then
        Except.error VError.invalidLineItem
      else
        match lookup cache bid with
        | none => Except.error (VError.productNotFound bid)
        | some masterBook =>
          if item.price = some masterBook.price then
            validateItems cache rest (subtotal + masterBook.price * q)
          else
            Except.error (VError.priceMismatch masterBook.title masterBook.price item.price)
    | _, _ => Except.error VError.invalidLineItem

/-- `validatePaymentAmount(items, expectedTotal)` (`server.js:600-654`). -/
def validatePaymentAmount (cache : List Book) (items : List CartItem)
    (expectedTotal : ℚ) : VResult :=
  if items.isEmpty then
    { valid := false, error := some VError.noItems, calculatedTotal := none }
  else
    match validateItems cache items 0 with
    | Except.error e =>
      { valid := false, error := some e, calculatedTotal := none }
    | Except.ok calculatedSubtotal =>
      let calculatedTotal := calculatedSubtotal + shippingFee calculatedSubtotal
      if calculatedTotal = expectedTotal then
        { valid := true, error := none, calculatedTotal := some calculatedTotal }
      else
        { valid := false,
          error := some (VError.totalMismatch calculatedTotal expectedTotal),
          calculatedTotal := some calculatedTotal }

/-- A cart line is well formed and matches the cache: its `bookId` is
present in the cache, its quantity is positive, and its client price
equals the cached master price. -/
def LineMatches (cache : List Book) (it : CartItem) : Prop :=
  ∃ bid q b, it.bookId = some bid ∧ it.quantity = some q ∧ 0 < q ∧
    lookup cache bid = some b ∧ it.price = some b.price

/-- The master amount of a single line: cached price times quantity
(junk value `0` on lines that are not well formed; never used there). -/
def masterLineAmount (cache : List Book) (it : CartItem) : ℚ :=
  match it.bookId, it.quantity with
  | some bid, some q =>
    match lookup cache bid with
    | some b => b.price * q
    | none => 0
  | _, _ => 0

/-- `Σ master price × quantity` over a line list. -/
def masterSubtotal (cache : List Book) (items : List CartItem) : ℚ :=
  (items.map (masterLineAmount cache)).sum

/-- Subtotal plus shipping fee: the total the server recomputes. -/
def computedTotal (cache : List Book) (items : List CartItem) : ℚ :=
  masterSubtotal cache items + shippingFee (masterSubtotal cache items)

/-- The body of `POST /api/payments/confirm`:
`{ paymentKey, orderId, amount, items }`, each field possibly absent. -/
structure ConfirmRequest where
  paymentKey : Option String
  orderId : Option String
  amount : Option ℚ
  items : Option (List CartItem)
deriving Repr, DecidableEq

/-- The JSON body of a successful Toss payments confirm response: the
fields `server.js` reads from `tossResult`. -/
structure TossSuccess where
  paymentKey : String
  orderId : String
  orderName : String
  totalAmount : ℚ
  status : String
  method : String
  approvedAt : String
deriving Repr, DecidableEq

/-- A provider rejection: non-ok HTTP status plus the `code` and `message`
of the error body. -/
structure ProviderError where
  httpStatus : Nat
  code : String
  message : String
deriving Repr, DecidableEq

/-- A row of the `orders` table (the columns the confirm flow inserts and
the lookup endpoint reads). -/
structure OrderRow where
  user_id : Nat
  order_id : String
  payment_key : String
  order_name : String
  total_amount : ℚ
  status : String
  method : String
  items : List CartItem
  created_at : ℤ
deriving Repr, DecidableEq

/-- The four response shapes of `POST /api/payments/confirm`:
400 for a malformed request, 400 `{error, detail}` for a validation
failure, the provider's status with `{error, code, message}` for a
provider rejection, and the success payload after an order insert. -/
inductive ConfirmOutcome where
  | badRequest (error : String)
  | validationFailed (detail : Option VError)
  | providerFailed (httpStatus : Nat) (code message : String)
  | completed (inserted : OrderRow) (respOrderId : String) (respTotalAmount : ℚ)
      (respMethod respStatus respApprovedAt : String)
deriving Repr, DecidableEq

/-- `POST /api/payments/confirm` (`server.js:806-922`), with the external
Toss confirm call modelled as an input `provider` consumed only when the
flow reaches it, and the clock as `now`.  Field checks mirror JS
truthiness: `!paymentKey || !orderId || !amount` rejects an absent string
or amount, an empty string, and a zero amount; the separate items check
rejects an absent or empty array.  An order row is inserted only in the
`completed` outcome, built from the provider's returned fields plus the
request's item list. -/
def confirmPayment (cache : List Book) (userId : Nat) (req : ConfirmRequest)
    (provider : Except ProviderError TossSuccess) (now : ℤ) : ConfirmOutcome :=
  match req.paymentKey, req.orderId, req.amount with
  | some pk, some oid, some amount =>
    if pk = "" ∨ oid = "" ∨ amount = 0 then
      ConfirmOutcome.badRequest "paymentKey, orderId, amount required"
    else
      match req.items with
      | none => ConfirmOutcome.badRequest "items required"
      | some items =>
        if items.isEmpty then
          ConfirmOutcome.badRequest "items required"
        else
          let validation := validatePaymentAmount cache items amount
          if validation.valid then
            match provider with
            | Except.error pe =>
              ConfirmOutcome.providerFailed pe.httpStatus pe.code pe.message
            | Except.ok t =>
              ConfirmOutcome.completed
                { user_id := userId, order_id := t.orderId,
                  payment_key := t.paymentKey, order_name := t.orderName,
                  total_amount := t.totalAmount, status := t.status,
                  method := t.method, items := items, created_at := now }
                t.orderId t.totalAmount t.method t.status t.approvedAt
          else
            ConfirmOutcome.validationFailed validation.error
  | _, _, _ => ConfirmOutcome.badRequest "paymentKey, orderId, amount required"

/-- The order row persisted by an outcome: only `completed` inserts. -/
def insertedOrder : ConfirmOutcome → Option OrderRow
  | ConfirmOutcome.completed o _ _ _ _ _ => some o
  | _ => none

/-- Newest-first order on order rows (`ORDER BY created_at DESC`). -/
def newerFirst (a b : OrderRow) : Prop :=
  b.created_at ≤ a.created_at

instance : DecidableRel newerFirst := fun a b =>
  inferInstanceAs (Decidable (b.created_at ≤ a.created_at))

instance : IsTotal OrderRow newerFirst :=
  ⟨fun a b => le_total b.created_at a.created_at⟩

instance : IsTrans OrderRow newerFirst :=
  ⟨fun _ _ _ h h2 => le_trans h2 h⟩

/-- `GET /api/orders` (`server.js:927-944`): the rows of the `orders`
table with `user_id = uid`, ordered by `created_at DESC`, limited to 50. -/
def getOrdersByUser (table : List OrderRow) (uid : Nat) : List OrderRow :=
  (List.insertionSort newerFirst (table.filter (fun o => o.user_id == uid))).take 50

/-! ### Sample data for concrete instantiations -/

/-- A sample active-product cache. -/
def sampleCache : List Book :=
  [⟨1, "Modern JavaScript", 45000⟩, ⟨2, "Clean Code", 12000⟩, ⟨3, "SICP", 18000⟩]

/-- A sample orders table with three rows for two users. -/
def sampleTable : List OrderRow :=
  [⟨1, "ord-a", "pay-a", "Modern JavaScript", 45000, "DONE", "CARD", [], 5⟩,
   ⟨2, "ord-b", "pay-b", "Clean Code", 15000, "DONE", "CARD", [], 9⟩,
   ⟨1, "ord-c", "pay-c", "SICP", 21000, "DONE", "CARD", [], 7⟩]

/-- A sample well-formed confirmation request whose claimed amount 45000
matches the recomputed total (subtotal 45000 ≥ 30000, so shipping is 0). -/
def sampleReq : ConfirmRequest :=
  { paymentKey := some "pay-key-1", orderId := some "ord-1",
    amount := some 45000, items := some [⟨some 1, some 1, some 45000⟩] }

/-- A sample successful provider response echoing the confirmed amount. -/
def sampleToss : TossSuccess :=
  { paymentKey := "pay-key-1", orderId := "ord-1",
    orderName := "Modern JavaScript", totalAmount := 45000,
    status := "DONE", method := "CARD", approvedAt := "2025-01-01T00:00:00" }

/-- A sample provider rejection. -/
def sampleProviderError : ProviderError :=
  { httpStatus := 404, code := "NOT_FOUND_PAYMENT", message := "payment not found" }

/-- The order row inserted when `sampleReq` is confirmed with `sampleToss`
at time 0 by user 1. -/
def sampleOrderRow : OrderRow :=
  { user_id := 1, order_id := "ord-1", payment_key := "pay-key-1",
    order_name := "Modern JavaScript", total_amount := 45000,
    status := "DONE", method := "CARD",
    items := [⟨some 1, some 1, some 45000⟩], created_at := 0 }

/-! ### Helper lemmas about the validator loop -/

/-- A successful cache lookup returns a cached row whose id is the key. -/
theorem lookup_spec (cache : List Book) (bid : Nat) (b : Book)
    (h : lookup cache bid = some b) : b ∈ cache ∧ b.id = bid := by
  refine ⟨List.mem_of_find?_eq_some h, ?_⟩
  have hp := List.find?_some h
  simpa using hp

/-- One step of the per-item loop on a well-formed matching line. -/
theorem validateItems_cons_step (cache : List Book) (it : CartItem)
    (rest : List CartItem) (acc : ℚ) (bid : Nat) (q : ℚ) (b : Book)
    (hbid : it.bookId = some bid) (hq : it.quantity = some q)
    (hbid0 : bid ≠ 0) (hqpos : 0 < q)
    (hlook : lookup cache bid = some b) (hp : it.price = some b.price) :
    validateItems cache (it :: rest) acc =
      validateItems cache rest (acc + b.price * q) := by
  have h0 : ¬ (bid = 0 ∨ q ≤ 0) := by
    push_neg
    exact ⟨hbid0, hqpos⟩
  simp only [validateItems, hbid, hq]
  rw [if_neg h0]
  simp only [hlook]
  rw [if_pos hp]

/-- The master subtotal of a cons of a matching line. -/
theorem masterSubtotal_cons (cache : List Book) (it : CartItem)
    (rest : List CartItem) (bid : Nat) (q : ℚ) (b : Book)
    (hbid : it.bookId = some bid) (hq : it.quantity = some q)
    (hlook : lookup cache bid = some b) :
    masterSubtotal cache (it :: rest) = b.price * q + masterSubtotal cache rest := by
  simp [masterSubtotal, masterLineAmount, hbid, hq, hlook]

/-- On a list of well-formed matching lines the per-item loop succeeds and
returns the accumulator plus the master subtotal. -/
theorem validateItems_ok_of_matches (cache : List Book) (hwf : CacheWF cache) :
    ∀ (items : List CartItem) (acc : ℚ), (∀ it ∈ items, LineMatches cache it) →
      validateItems cache items acc = Except.ok (acc + masterSubtotal cache items) := by
  intro items
  induction items with
  | nil => intro acc _; simp [validateItems, masterSubtotal]
  | cons it rest ih =>
    intro acc h
    obtain ⟨bid, q, b, hbid, hq, hqpos, hlook, hp⟩ := h it (List.mem_cons_self it rest)
    obtain ⟨hmem, hbeq⟩ := lookup_spec cache bid b hlook
    have hbid0 : bid ≠ 0 := by
      have := hwf b hmem
      omega
    have hrest : ∀ x ∈ rest, LineMatches cache x := fun x hx => h x (List.mem_cons_of_mem it hx)
    rw [validateItems_cons_step cache it rest acc bid q b hbid hq hbid0 hqpos hlook hp,
      ih (acc + b.price * q) hrest,
      masterSubtotal_cons cache it rest bid q b hbid hq hlook]
    congr 1
    ring

/-- Skipping a prefix of well-formed matching lines only accumulates their
master subtotal. -/
theorem validateItems_append_of_matches (cache : List Book) (hwf : CacheWF cache) :
    ∀ (pre : List CartItem) (acc : ℚ), (∀ it ∈ pre, LineMatches cache it) →
      ∀ tail, validateItems cache (pre ++ tail) acc =
        validateItems cache tail (acc + masterSubtotal cache pre) := by
  intro pre
  induction pre with
  | nil => intro acc _ tail; simp [masterSubtotal]
  | cons it rest ih =>
    intro acc h tail
    obtain ⟨bid, q, b, hbid, hq, hqpos, hlook, hp⟩ := h it (List.mem_cons_self it rest)
    obtain ⟨hmem, hbeq⟩ := lookup_spec cache bid b hlook
    have hbid0 : bid ≠ 0 := by
      have := hwf b hmem
      omega
    have hrest : ∀ x ∈ rest, LineMatches cache x := fun x hx => h x (List.mem_cons_of_mem it hx)
    rw [List.cons_append,
      validateItems_cons_step cache it (rest ++ tail) acc bid q b hbid hq hbid0 hqpos hlook hp,
      ih (acc + b.price * q) hrest tail,
      masterSubtotal_cons cache it rest bid q b hbid hq hlook]
    congr 1
    ring

/-- The per-item loop never produces the total-mismatch reason: that reason
belongs only to the final comparison. -/
theorem validateItems_ne_totalMismatch (cache : List Book) :
    ∀ (items : List CartItem) (acc : ℚ) (c e : ℚ),
      validateItems cache items acc ≠ Except.error (VError.totalMismatch c e) := by
  intro items
  induction items with
  | nil => intro acc c e; simp [validateItems]
  | cons it rest ih =>
    intro acc c e
    simp only [validateItems]
    match hb : it.bookId, hq : it.quantity with
    | none, _ => simp
    | some bid, none => simp
    | some bid, some q =>
      by_cases h0 : bid = 0 ∨ q ≤ 0
      · simp [h0]
      · simp only [if_neg h0]
        match hl : lookup cache bid with
        | none => simp
        | some b =>
          by_cases hp : it.price = some b.price
          · simpa [hp] using ih (acc + b.price * q) c e
          · simp [hp]

/-- When the per-item loop succeeds, every line carried a present client
price (it had to equal the master price). -/
theorem price_some_of_validateItems_ok (cache : List Book) :
    ∀ (items : List CartItem) (acc s : ℚ),
      validateItems cache items acc = Except.ok s →
      ∀ it ∈ items, it.price ≠ none := by
  intro items
  induction items with
  | nil => intro acc s _ it hmem; cases hmem
  | cons hd rest ih =>
    intro acc s hok it hmem
    match hb : hd.bookId, hq : hd.quantity with
    | none, _ => simp only [validateItems, hb] at hok; cases hok
    | some bid, none => simp only [validateItems, hb, hq] at hok; cases hok
    | some bid, some q =>
      simp only [validateItems, hb, hq] at hok
      by_cases h0 : bid = 0 ∨ q ≤ 0
      · rw [if_pos h0] at hok; cases hok
      · rw [if_neg h0] at hok
        match hl : lookup cache bid with
        | none => simp only [hl] at hok; cases hok
        | some b =>
          simp only [hl] at hok
          by_cases hp : hd.price = some b.price
          · rw [if_pos hp] at hok
            rcases List.mem_cons.mp hmem with heq | hmem2
            · subst heq
              rw [hp]
              exact Option.some_ne_none _
            · exact ih (acc + b.price * q) s hok it hmem2
          · rw [if_neg hp] at hok; cases hok

/-- An accepted request's returned `calculatedTotal` is exactly the claimed
total (acceptance happens only after the equality check). -/
theorem calculatedTotal_of_valid (cache : List Book) (items : List CartItem)
    (expectedTotal : ℚ)
    (h : (validatePaymentAmount cache items expectedTotal).valid = true) :
    (validatePaymentAmount cache items expectedTotal).calculatedTotal = some expectedTotal := by
  unfold validatePaymentAmount at h ⊢
  by_cases hne : items.isEmpty
  · simp [hne] at h
  · simp only [hne, if_false, Bool.false_eq_true] at h ⊢
    match hv : validateItems cache items 0 with
    | Except.error e => rw [hv] at h; simp at h
    | Except.ok s =>
      rw [hv] at h
      by_cases heq : s + shippingFee s = expectedTotal
      · simp [heq]
      · simp [heq] at h

/-- A list with a distinguished middle element is not empty. -/
theorem isEmpty_append_cons (pre rest : List CartItem) (bad : CartItem) :
    (pre ++ bad :: rest).isEmpty = false := by
  cases pre <;> rfl

/-- After a well-formed matching prefix, a line whose client price differs
from the master price makes the whole validation fail with the
price-mismatch reason and no computed total. -/
theorem validate_rejects_price_mismatch (cache : List Book)
    (pre rest : List CartItem) (bad : CartItem) (claimedTotal : ℚ)
    (bid : Nat) (q : ℚ) (b : Book)
    (hwf : CacheWF cache) (hpre : ∀ it ∈ pre, LineMatches cache it)
    (hbid : bad.bookId = some bid) (hq : bad.quantity = some q) (hqpos : 0 < q)
    (hlook : lookup cache bid = some b) (hmis : bad.price ≠ some b.price) :
    validatePaymentAmount cache (pre ++ bad :: rest) claimedTotal =
      { valid := false,
        error := some (VError.priceMismatch b.title b.price bad.price),
        calculatedTotal := none } := by
  obtain ⟨hmem, hbeq⟩ := lookup_spec cache bid b hlook
  have hbid0 : bid ≠ 0 := by
    have := hwf b hmem
    omega
  have h0 : ¬ (bid = 0 ∨ q ≤ 0) := by
    push_neg
    exact ⟨hbid0, hqpos⟩
  have hVI : validateItems cache (pre ++ bad :: rest) 0 =
      Except.error (VError.priceMismatch b.title b.price bad.price) := by
    rw [validateItems_append_of_matches cache hwf pre 0 hpre (bad :: rest)]
    simp only [validateItems, hbid, hq]
    rw [if_neg h0]
    simp only [hlook]
    rw [if_neg hmis]
  unfold validatePaymentAmount
  rw [isEmpty_append_cons]
  simp only [Bool.false_eq_true, if_false, hVI]

/-- After a well-formed matching prefix, a line whose `bookId` misses the
cache makes the whole validation fail with the product-not-found reason
and no computed total, for every claimed total. -/
theorem validate_rejects_unknown_product (cache : List Book)
    (pre rest : List CartItem) (bad : CartItem) (claimedTotal : ℚ)
    (bid : Nat) (q : ℚ)
    (hwf : CacheWF cache) (hpre : ∀ it ∈ pre, LineMatches cache it)
    (hbid : bad.bookId = some bid) (hbid0 : bid ≠ 0)
    (hq : bad.quantity = some q) (hqpos : 0 < q)
    (hlook : lookup cache bid = none) :
    validatePaymentAmount cache (pre ++ bad :: rest) claimedTotal =
      { valid := false,
        error := some (VError.productNotFound bid),
        calculatedTotal := none } := by
  have h0 : ¬ (bid = 0 ∨ q ≤ 0) := by
    push_neg
    exact ⟨hbid0, hqpos⟩
  have hVI : validateItems cache (pre ++ bad :: rest) 0 =
      Except.error (VError.productNotFound bid) := by
    rw [validateItems_append_of_matches cache hwf pre 0 hpre (bad :: rest)]
    simp only [validateItems, hbid, hq]
    rw [if_neg h0]
    simp only [hlook]
  unfold validatePaymentAmount
  rw [isEmpty_append_cons]
  simp only [Bool.false_eq_true, if_false, hVI]

/-- An accepted request's per-item loop succeeded. -/
theorem validateItems_ok_of_valid (cache : List Book) (items : List CartItem)
    (expectedTotal : ℚ)
    (h : (validatePaymentAmount cache items expectedTotal).valid = true) :
    ∃ s, validateItems cache items 0 = Except.ok s := by
  unfold validatePaymentAmount at h
  by_cases hne : items.isEmpty
  · simp [hne] at h
  · simp only [hne, if_false, Bool.false_eq_true] at h
    match hv : validateItems cache items 0 with
    | Except.error e => rw [hv] at h; simp at h
    | Except.ok s => exact ⟨s, rfl⟩

/-! ### Claim theorems -/

/-- Claim C1: for every non-empty line list in which every line's `bookId`
is present in the active-product cache, every client price equals the
cached master price and every quantity is positive,
`validatePaymentAmount` accepts iff the claimed total equals
`Σ master price × quantity` plus a shipping fee of 0 when that subtotal is
at least 30000 and 3000 otherwise; on acceptance the returned
`calculatedTotal` is that same value. -/
theorem C1_validator_accepts_iff_server_total (cache : List Book)
    (items : List CartItem) (claimedTotal : ℚ)
    (hwf : CacheWF cache) (hne : items ≠ [])
    (hm : ∀ it ∈ items, LineMatches cache it) :
    ((validatePaymentAmount cache items claimedTotal).valid = true ↔
      claimedTotal = computedTotal cache items) ∧
    ((validatePaymentAmount cache items claimedTotal).valid = true →
      (validatePaymentAmount cache items claimedTotal).calculatedTotal =
        some (computedTotal cache items)) := by
  have hE : items.isEmpty = false := by
    cases items with
    | nil => exact absurd rfl hne
    | cons a l => rfl
  have hVI : validateItems cache items 0 = Except.ok (masterSubtotal cache items) := by
    rw [validateItems_ok_of_matches cache hwf items 0 hm, zero_add]
  unfold validatePaymentAmount
  rw [hE]
  simp only [Bool.false_eq_true, if_false, hVI]
  by_cases heq : masterSubtotal cache items + shippingFee (masterSubtotal cache items) =
      claimedTotal
  · simp [computedTotal, heq, if_pos heq]
  · simp [computedTotal, if_neg heq]
    intro h
    exact heq h.symm

/-- Claim C1, instantiated: one line of book 2 at master price 12000,
quantity 2 (subtotal 24000 < 30000, so shipping 3000) is accepted at
claimed total 27000. -/
theorem C1_validator_accepts_iff_server_total_witness :
    (validatePaymentAmount sampleCache [⟨some 2, some 2, some 12000⟩] 27000).valid = true := by
  refine (C1_validator_accepts_iff_server_total sampleCache
    [⟨some 2, some 2, some 12000⟩] 27000 ?_ ?_ ?_).1.mpr ?_
  · intro b hb
    fin_cases hb <;> norm_num
  · simp
  · intro it hit
    simp only [List.mem_singleton] at hit
    subst hit
    exact ⟨2, 2, ⟨2, "Clean Code", 12000⟩, rfl, rfl, by norm_num, rfl, rfl⟩
  · norm_num [computedTotal, masterSubtotal, masterLineAmount, lookup, sampleCache, shippingFee]

/-- Claim C2: whenever the confirmation flow persists an order (and the
external provider, as the Toss confirm contract specifies, echoes the
confirmed amount as `totalAmount` on success), the stored `total_amount`
is exactly the total the Amount Validator computed and accepted — which in
turn equals the claimed amount only because validation forced that
equality. -/
theorem C2_persisted_total_is_server_computed (cache : List Book) (userId : Nat)
    (req : ConfirmRequest) (provider : Except ProviderError TossSuccess) (now : ℤ)
    (o : OrderRow)
    (hecho : ∀ t a, provider = Except.ok t → req.amount = some a → t.totalAmount = a)
    (hins : insertedOrder (confirmPayment cache userId req provider now) = some o) :
    ∃ items a, req.items = some items ∧ req.amount = some a ∧
      (validatePaymentAmount cache items a).valid = true ∧
      (validatePaymentAmount cache items a).calculatedTotal = some o.total_amount ∧
      o.total_amount = a := by
  match hpk : req.paymentKey, hoid : req.orderId, hamt : req.amount with
  | none, _, _ =>
    simp only [confirmPayment, hpk, insertedOrder] at hins
    cases hins
  | some pk, none, _ =>
    simp only [confirmPayment, hpk, hoid, insertedOrder] at hins
    cases hins
  | some pk, some oid, none =>
    simp only [confirmPayment, hpk, hoid, hamt, insertedOrder] at hins
    cases hins
  | some pk, some oid, some amt =>
    simp only [confirmPayment, hpk, hoid, hamt] at hins
    by_cases hguard : pk = "" ∨ oid = "" ∨ amt = 0
    · rw [if_pos hguard] at hins
      simp [insertedOrder] at hins
    · rw [if_neg hguard] at hins
      match hitems : req.items with
      | none =>
        simp only [hitems, insertedOrder] at hins
        cases hins
      | some items =>
        simp only [hitems] at hins
        by_cases hE : items.isEmpty
        · rw [if_pos hE] at hins
          simp [insertedOrder] at hins
        · rw [if_neg hE] at hins
          by_cases hval : (validatePaymentAmount cache items amt).valid
          · simp only [hval, if_true] at hins
            match hprov : provider with
            | Except.error pe =>
              simp only [hprov, insertedOrder] at hins
              cases hins
            | Except.ok t =>
              simp only [hprov, insertedOrder, Option.some.injEq] at hins
              have htot : t.totalAmount = amt := hecho t amt rfl hamt
              refine ⟨items, amt, rfl, rfl, hval, ?_, ?_⟩
              · rw [calculatedTotal_of_valid cache items amt hval, ← hins]
                rw [htot]
              · rw [← hins]
                exact htot
          · simp only [hval, if_false, Bool.false_eq_true, insertedOrder] at hins
            cases hins

/-- Claim C2, instantiated: the sample request confirmed by the sample
provider success persists `sampleOrderRow`, whose `total_amount` 45000 is
the validator's computed total. -/
theorem C2_persisted_total_is_server_computed_witness :
    ∃ items a, sampleReq.items = some items ∧ sampleReq.amount = some a ∧
      (validatePaymentAmount sampleCache items a).valid = true ∧
      (validatePaymentAmount sampleCache items a).calculatedTotal =
        some sampleOrderRow.total_amount ∧
      sampleOrderRow.total_amount = a := by
  refine C2_persisted_total_is_server_computed sampleCache 1 sampleReq
    (Except.ok sampleToss) 0 sampleOrderRow ?_ ?_
  · intro t a ht ha
    cases ht
    cases Option.some.inj ha
    rfl
  · norm_num [confirmPayment, sampleReq, validatePaymentAmount, validateItems, lookup,
      sampleCache, shippingFee, insertedOrder, sampleToss, sampleOrderRow,
      (by simp : ("pay-key-1" = "") = False), (by simp : ("ord-1" = "") = False)]

/-- Claim C3: a well-formed confirmation request that passes amount
validation but whose provider confirm call fails yields the
provider-failure response (the provider's status, `code` and `message`,
a different shape from the validator's error response) and inserts no
order row. -/
theorem C3_provider_failure_no_persistence (cache : List Book) (userId : Nat)
    (req : ConfirmRequest) (pe : ProviderError) (now : ℤ)
    (pk oid : String) (amt : ℚ) (items : List CartItem)
    (hpk : req.paymentKey = some pk) (hpk0 : pk ≠ "")
    (hoid : req.orderId = some oid) (hoid0 : oid ≠ "")
    (hamt : req.amount = some amt) (hamt0 : amt ≠ 0)
    (hitems : req.items = some items) (hE : items.isEmpty = false)
    (hval : (validatePaymentAmount cache items amt).valid = true) :
    confirmPayment cache userId req (Except.error pe) now =
      ConfirmOutcome.providerFailed pe.httpStatus pe.code pe.message ∧
    insertedOrder (confirmPayment cache userId req (Except.error pe) now) = none := by
  have hguard : ¬ (pk = "" ∨ oid = "" ∨ amt = 0) := by
    push_neg
    exact ⟨hpk0, hoid0, hamt0⟩
  have hmain : confirmPayment cache userId req (Except.error pe) now =
      ConfirmOutcome.providerFailed pe.httpStatus pe.code pe.message := by
    simp only [confirmPayment, hpk, hoid, hamt, hitems]
    rw [if_neg hguard, hE]
    simp only [Bool.false_eq_true, if_false, hval, if_true]
  exact ⟨hmain, by rw [hmain]; rfl⟩

/-- Claim C3, instantiated: the sample request with a provider rejection
surfaces the provider's 404 `NOT_FOUND_PAYMENT` code and message. -/
theorem C3_provider_failure_no_persistence_witness :
    confirmPayment sampleCache 1 sampleReq (Except.error sampleProviderError) 0 =
      ConfirmOutcome.providerFailed 404 "NOT_FOUND_PAYMENT" "payment not found" :=
  (C3_provider_failure_no_persistence sampleCache 1 sampleReq sampleProviderError 0
    "pay-key-1" "ord-1" 45000 [⟨some 1, some 1, some 45000⟩] rfl (by simp) rfl (by simp)
    rfl (by norm_num) rfl rfl
    (by norm_num [validatePaymentAmount, validateItems, lookup, sampleCache, shippingFee])).1

/-- Claim C4: the shipping fee is 0 exactly when the subtotal is at least
30000 and 3000 below that, and the free-shipping boundary is inclusive:
two lines with subtotal exactly 30000 are accepted at claimed total
30000. -/
theorem C4_shipping_fee_boundary :
    (∀ s : ℚ, 30000 ≤ s → shippingFee s = 0) ∧
    (∀ s : ℚ, s < 30000 → shippingFee s = 3000) ∧
    validatePaymentAmount sampleCache
      [⟨some 2, some 1, some 12000⟩, ⟨some 3, some 1, some 18000⟩] 30000 =
      { valid := true, error := none, calculatedTotal := some 30000 } := by
  refine ⟨fun s h => if_pos h, fun s h => if_neg (not_le.mpr h), ?_⟩
  norm_num [validatePaymentAmount, validateItems, lookup, sampleCache, shippingFee]

/-- Claim C4, instantiated at the boundary values. -/
theorem C4_shipping_fee_boundary_witness :
    shippingFee 30000 = 0 ∧ shippingFee 29999 = 3000 :=
  ⟨C4_shipping_fee_boundary.1 30000 (by norm_num),
   C4_shipping_fee_boundary.2.1 29999 (by norm_num)⟩

/-- Claim C5: after any prefix of well-formed matching lines, a line whose
client price differs from the cached master price is rejected with the
price-mismatch reason, for every claimed total (in particular also when
the claimed total equals the correctly computed one). -/
theorem C5_price_mismatch_rejected (cache : List Book) (pre rest : List CartItem)
    (bad : CartItem) (claimedTotal : ℚ) (bid : Nat) (q : ℚ) (b : Book)
    (hwf : CacheWF cache) (hpre : ∀ it ∈ pre, LineMatches cache it)
    (hbid : bad.bookId = some bid) (hq : bad.quantity = some q) (hqpos : 0 < q)
    (hlook : lookup cache bid = some b) (hmis : bad.price ≠ some b.price) :
    (validatePaymentAmount cache (pre ++ bad :: rest) claimedTotal).valid = false ∧
    (validatePaymentAmount cache (pre ++ bad :: rest) claimedTotal).error =
      some (VError.priceMismatch b.title b.price bad.price) := by
  rw [validate_rejects_price_mismatch cache pre rest bad claimedTotal bid q b
    hwf hpre hbid hq hqpos hlook hmis]
  exact ⟨rfl, rfl⟩

/-- Claim C5, instantiated: book 2 claimed at 9999 instead of 12000 is
rejected even though a total could coincide. -/
theorem C5_price_mismatch_rejected_witness :
    (validatePaymentAmount sampleCache [⟨some 2, some 1, some 9999⟩] 12999).valid = false := by
  refine (C5_price_mismatch_rejected sampleCache [] [] ⟨some 2, some 1, some 9999⟩ 12999 2 1
    ⟨2, "Clean Code", 12000⟩ ?_ ?_ rfl rfl (by norm_num) rfl ?_).1
  · intro x hx
    fin_cases hx <;> norm_num
  · intro it hit
    cases hit
  · intro h
    have := Option.some.inj h
    norm_num at this

/-- Claim C6: after any prefix of well-formed matching lines, a line whose
`bookId` is absent from the active-product cache is rejected with the
product-not-found reason, for every claimed total. -/
theorem C6_unknown_product_rejected (cache : List Book) (pre rest : List CartItem)
    (bad : CartItem) (claimedTotal : ℚ) (bid : Nat) (q : ℚ)
    (hwf : CacheWF cache) (hpre : ∀ it ∈ pre, LineMatches cache it)
    (hbid : bad.bookId = some bid) (hbid0 : bid ≠ 0)
    (hq : bad.quantity = some q) (hqpos : 0 < q)
    (hlook : lookup cache bid = none) :
    (validatePaymentAmount cache (pre ++ bad :: rest) claimedTotal).valid = false ∧
    (validatePaymentAmount cache (pre ++ bad :: rest) claimedTotal).error =
      some (VError.productNotFound bid) := by
  rw [validate_rejects_unknown_product cache pre rest bad claimedTotal bid q
    hwf hpre hbid hbid0 hq hqpos hlook]
  exact ⟨rfl, rfl⟩

/-- Claim C6, instantiated: bookId 999 is not in the sample cache and is
rejected with the does-not-exist reason. -/
theorem C6_unknown_product_rejected_witness :
    (validatePaymentAmount sampleCache [⟨some 999, some 1, some 100⟩] 100).error =
      some (VError.productNotFound 999) := by
  refine (C6_unknown_product_rejected sampleCache [] [] ⟨some 999, some 1, some 100⟩
    100 999 1 ?_ ?_ rfl ?_ rfl (by norm_num) rfl).2
  · intro x hx
    fin_cases hx <;> norm_num
  · intro it hit
    cases hit
  · norm_num

/-- Claim C7 fails as stated: the unknown-product rejection (like every
per-line rejection and the empty-list rejection) returns no
`calculatedTotal` at all — only the final total-mismatch rejection carries
it. -/
theorem C7_counterexample_rejection_without_total :
    (validatePaymentAmount sampleCache [⟨some 999, some 1, some 100⟩] 48000).valid = false ∧
    (validatePaymentAmount sampleCache [⟨some 999, some 1, some 100⟩] 48000).error =
      some (VError.productNotFound 999) ∧
    (validatePaymentAmount sampleCache [⟨some 999, some 1, some 100⟩] 48000).calculatedTotal =
      none := by
  norm_num [validatePaymentAmount, validateItems, lookup, sampleCache]

/-- Claim C7 amended: every rejection carries a reason, but the computed
total accompanies a rejection exactly when the reason is the final
total-mismatch; the empty-list, invalid-line, unknown-product and
price-mismatch rejections carry no computed total. -/
theorem C7_amended_total_only_on_final_mismatch (cache : List Book)
    (items : List CartItem) (claimedTotal : ℚ)
    (h : (validatePaymentAmount cache items claimedTotal).valid = false) :
    (validatePaymentAmount cache items claimedTotal).error ≠ none ∧
    (∀ c, (validatePaymentAmount cache items claimedTotal).calculatedTotal = some c →
      (validatePaymentAmount cache items claimedTotal).error =
        some (VError.totalMismatch c claimedTotal)) ∧
    (∀ c e, (validatePaymentAmount cache items claimedTotal).error =
        some (VError.totalMismatch c e) →
      (validatePaymentAmount cache items claimedTotal).calculatedTotal = some c) := by
  unfold validatePaymentAmount at h ⊢
  by_cases hne : items.isEmpty
  · simp [hne]
  · simp only [hne, if_false, Bool.false_eq_true] at h ⊢
    match hv : validateItems cache items 0 with
    | Except.error e =>
      refine ⟨by simp, by simp, ?_⟩
      intro c e2 herr
      simp only at herr
      have : e = VError.totalMismatch c e2 := Option.some.inj herr
      exact absurd (this ▸ hv) (validateItems_ne_totalMismatch cache items 0 c e2)
    | Except.ok s =>
      rw [hv] at h
      by_cases heq : s + shippingFee s = claimedTotal
      · simp [heq] at h
      · simp only [if_neg heq]
        refine ⟨by simp, ?_, ?_⟩
        · intro c hc
          simp only [Option.some.injEq] at hc
          subst hc
          rfl
        · intro c e herr
          simp only [Option.some.injEq, VError.totalMismatch.injEq] at herr
          rw [herr.1]

/-- Claim C7 amended, instantiated at a rejected total mismatch. -/
theorem C7_amended_total_only_on_final_mismatch_witness :
    (validatePaymentAmount sampleCache [⟨some 1, some 1, some 45000⟩] 1000).error ≠ none :=
  (C7_amended_total_only_on_final_mismatch sampleCache [⟨some 1, some 1, some 45000⟩] 1000
    (by norm_num [validatePaymentAmount, validateItems, lookup, sampleCache, shippingFee])).1

/-- Claim C8: the user order lookup returns only rows of the requesting
user, sorted newest-first by `created_at`, and never more than 50 rows, no
matter how many orders the table holds. -/
theorem C8_order_lookup_scoped_sorted_bounded (table : List OrderRow) (uid : Nat) :
    (getOrdersByUser table uid).length ≤ 50 ∧
    (∀ o ∈ getOrdersByUser table uid, o.user_id = uid) ∧
    List.Sorted newerFirst (getOrdersByUser table uid) := by
  refine ⟨?_, ?_, ?_⟩
  · simp only [getOrdersByUser, List.length_take]
    exact min_le_left _ _
  · intro o ho
    have h1 : o ∈ List.insertionSort newerFirst
        (table.filter (fun x => x.user_id == uid)) := List.mem_of_mem_take ho
    have h2 : o ∈ table.filter (fun x => x.user_id == uid) :=
      (List.perm_insertionSort newerFirst _).mem_iff.mp h1
    have h3 := (List.mem_filter.mp h2).2
    simpa using h3
  · exact List.Pairwise.sublist (List.take_sublist _ _)
      (List.sorted_insertionSort newerFirst _)

/-- Claim C8, instantiated on the sample table. -/
theorem C8_order_lookup_scoped_sorted_bounded_witness :
    (getOrdersByUser sampleTable 1).length ≤ 50 :=
  (C8_order_lookup_scoped_sorted_bounded sampleTable 1).1

/-- Claim C9: quantities are not required to be integers: a line with
quantity 3/2 on cached book 1 at its master price 45000 passes the
quantity check and is accepted at the computed total 67500
(subtotal 67500 ≥ 30000, so free shipping). -/
theorem C9_fractional_quantity_accepted :
    validatePaymentAmount sampleCache [⟨some 1, some (3/2 : ℚ), some 45000⟩] 67500 =
      { valid := true, error := none, calculatedTotal := some 67500 } := by
  norm_num [validatePaymentAmount, validateItems, lookup, sampleCache, shippingFee]

/-- Claim C10: a line whose client price field is absent is rejected with
the price-mismatch reason (an absent price never strictly equals the
master price), not the invalid-line-item reason; and the validator never
accepts any list containing a line with an absent price. -/
theorem C10_absent_price_rejected_as_mismatch (cache : List Book) :
    (∀ (pre rest : List CartItem) (bad : CartItem) (claimedTotal : ℚ)
        (bid : Nat) (q : ℚ) (b : Book),
      CacheWF cache → (∀ it ∈ pre, LineMatches cache it) →
      bad.bookId = some bid → bad.quantity = some q → 0 < q →
      lookup cache bid = some b → bad.price = none →
      (validatePaymentAmount cache (pre ++ bad :: rest) claimedTotal).valid = false ∧
      (validatePaymentAmount cache (pre ++ bad :: rest) claimedTotal).error =
        some (VError.priceMismatch b.title b.price none)) ∧
    (∀ (items : List CartItem) (claimedTotal : ℚ) (it : CartItem),
      it ∈ items → it.price = none →
      (validatePaymentAmount cache items claimedTotal).valid = false) := by
  constructor
  · intro pre rest bad claimedTotal bid q b hwf hpre hbid hq hqpos hlook hnone
    have hmis : bad.price ≠ some b.price := by
      rw [hnone]
      exact fun hx => Option.noConfusion hx
    have hres := validate_rejects_price_mismatch cache pre rest bad claimedTotal bid q b
      hwf hpre hbid hq hqpos hlook hmis
    rw [hnone] at hres
    rw [hres]
    exact ⟨rfl, rfl⟩
  · intro items claimedTotal it hmem hnone
    by_contra hval
    have hval2 : (validatePaymentAmount cache items claimedTotal).valid = true := by
      cases hb : (validatePaymentAmount cache items claimedTotal).valid
      · exact absurd hb hval
      · rfl
    obtain ⟨s, hs⟩ := validateItems_ok_of_valid cache items claimedTotal hval2
    exact price_some_of_validateItems_ok cache items 0 s hs it hmem hnone

/-- Claim C10, instantiated: a line for cached book 1 with no price field
is never accepted. -/
theorem C10_absent_price_rejected_as_mismatch_witness :
    (validatePaymentAmount sampleCache [⟨some 1, some 1, none⟩] 45000).valid = false :=
  (C10_absent_price_rejected_as_mismatch sampleCache).2 [⟨some 1, some 1, none⟩] 45000
    ⟨some 1, some 1, none⟩ (List.mem_singleton.mpr rfl) rfl

end BookShop
